import Mathlib

/-!
Shallow embedding of two fragments of the BlenderXR repository:

* `src/blender/source/blender/vr/intern/vr_widget_shift.cpp` — the
  `Widget_Shift::render_icon` VR controller-widget rendering method, and
* `src/blender/source/blender/editors/util/ed_util.c` — the editor
  utility functions (`ED_editors_init`, `ED_editors_exit`,
  `ED_editors_flush_edits`, `apply_keyb_grid`, `unpack_menu`,
  `ED_spacedata_id_remap`).

Float values are modelled as rationals; C pointers become `Option`;
external side-effecting calls (GPU draw calls, flush helpers, menu item
insertion, mode toggles) are recorded as explicit event values in lists,
in program order.
-/

namespace BlenderXR

/-! ### `vr_widget_shift.cpp`: Widget_Shift::render_icon -/

/-- The `Mat44f` — a 4×4 float matrix, modelled with rational entries. -/
abbrev Mat44f := Matrix (Fin 4) (Fin 4) ℚ

/-- The `VR_Side` — controller side enum (LEFT / RIGHT / ...), as a number. -/
abbrev VR_Side := Nat

/-- Texture identifier standing for the `VR_Draw::shift_tex` texture object. -/
def shift_tex : Nat := 0

/-- One call into the `VR_Draw` layer, as issued by `render_icon`. -/
inductive DrawCall
  /-- The call `VR_Draw::update_modelview_matrix(&m, i)` -/
  | update_modelview_matrix (m : Mat44f) (i : Nat)
  /-- The call `VR_Draw::set_color(r, g, b, a)` -/
  | set_color (r g b a : ℚ)
  /-- The call `VR_Draw::render_rect(left, right, top, bottom, z, u, v, tex)` -/
  | render_rect (left right top bottom z u v : ℚ) (tex : Nat)

namespace Widget_Shift

/-- The `Widget_Shift::render_icon(t, controller_side, active, touched)`:
the sequence of `VR_Draw` calls the method issues.  The static member
`VR_Widget::m_widget_touched` is defined outside this file's sources, so
it is taken as a parameter `m_widget_touched`. -/
def render_icon (m_widget_touched : Mat44f) (t : Mat44f)
    (controller_side : VR_Side) (active touched : Bool) : List DrawCall :=
  (if touched then
    -- const Mat44f& t_touched = m_widget_touched * t;
    [DrawCall.update_modelview_matrix (m_widget_touched * t) 0]
  else
    [DrawCall.update_modelview_matrix t 0]) ++
  (if active then
    [DrawCall.set_color 1 0 0 1]
  else
    [DrawCall.set_color 1 1 1 1]) ++
  [DrawCall.render_rect (-(9/1000)) (9/1000) (9/1000) (-(9/1000)) (1/1000) 1 1 shift_tex]

end Widget_Shift

/-- The RGBA arguments of the first `set_color` call in a draw-call list. -/
def colorSet : List DrawCall → Option (ℚ × ℚ × ℚ × ℚ)
  | [] => none
  | DrawCall.set_color r g b a :: _ => some (r, g, b, a)
  | _ :: rest => colorSet rest

/-- The matrix argument of the first `update_modelview_matrix` call in a
draw-call list. -/
def modelviewSet : List DrawCall → Option Mat44f
  | [] => none
  | DrawCall.update_modelview_matrix m _ :: _ => some m
  | _ :: rest => modelviewSet rest

/-! ### `ed_util.c`: data model

Objects of the main database, with exactly the fields `ed_util.c` reads
or writes.  Pointers are `Option`s / `Bool`s recording non-nullness. -/

/-- The `eObjectMode` bit: `OB_MODE_OBJECT = 0`. -/
def OB_MODE_OBJECT : Nat := 0
/-- The `eObjectMode` bit: `OB_MODE_EDIT = 1 << 0`. -/
def OB_MODE_EDIT : Nat := 1
/-- The `eObjectMode` bit: `OB_MODE_SCULPT = 1 << 1`. -/
def OB_MODE_SCULPT : Nat := 2

/-- Object type: `OB_MESH`. -/
def OB_MESH : Nat := 1
/-- Object type: `OB_ARMATURE`. -/
def OB_ARMATURE : Nat := 25
/-- Object type: `OB_GPENCIL`. -/
def OB_GPENCIL : Nat := 26

/-- The `ReportListFlags` bit `RPT_STORE = 1 << 1`. -/
def RPT_STORE : Nat := 2

/-- The parts of `SculptSession` that `ed_util.c` reads: whether the
stroke cache pointer (`ss->cache`) is non-NULL. -/
structure SculptSession where
  cache : Bool
  deriving DecidableEq

/-- The object data block (`ob->data`), with the fields `ed_util.c`
reads: its library-linked status (`ID_IS_LINKED(data)`), a mesh's
`edit_btmesh` pointer, an armature's `edbo` pointer.  Which fields are
meaningful depends on `ob->type`, as in the C union-style access. -/
structure ObjData where
  linked : Bool
  edit_btmesh : Bool
  edbo : Bool
  deriving DecidableEq

/-- A Blender `Object`, restricted to the fields `ed_util.c` uses.
`has_mode_data` stands for `BKE_object_has_mode_data(ob, ob->mode)`,
which `ED_editors_init` calls with the object's own saved mode. -/
structure Object where
  mode : Nat
  type : Nat
  /-- The call `ID_IS_LINKED(ob)` -/
  linked : Bool
  /-- The call `ob->data` (may be NULL) -/
  data : Option ObjData
  /-- The call `ob->sculpt` (may be NULL) -/
  sculpt : Option SculptSession
  /-- The call `BKE_object_has_mode_data(ob, ob->mode)` -/
  has_mode_data : Bool
  deriving DecidableEq

/-- The `ob->sculpt && ob->sculpt->cache`: a sculpt session exists and has an
active stroke cache. -/
def sculptCacheActive (ob : Object) : Bool :=
  match ob.sculpt with
  | some ss => ss.cache
  | none => false

/-! ### `ED_editors_flush_edits` -/

/-- A flush action performed by `ED_editors_flush_edits`, tagged with the
position of the object it was performed for. -/
inductive FlushEffect
  /-- The call `multires_force_update(ob)` -/
  | multires_force_update (i : Nat)
  /-- The call `BKE_sculptsession_bm_to_me_for_render(ob)` -/
  | bm_to_me_for_render (i : Nat)
  /-- The call `BKE_sculptsession_bm_to_me(ob, false)` -/
  | bm_to_me (i : Nat)
  /-- The call `ED_object_editmode_load(bmain, ob)` -/
  | editmode_load (i : Nat)
  deriving DecidableEq

/-- The object position a flush effect was performed for. -/
def FlushEffect.index : FlushEffect → Nat
  | .multires_force_update i => i
  | .bm_to_me_for_render i => i
  | .bm_to_me i => i
  | .editmode_load i => i

/-- One iteration of the `ED_editors_flush_edits` loop body on the object
at position `i`: the contribution to `has_edited` and the flush actions
performed. -/
def flushObject (for_render : Bool) (i : Nat) (ob : Object) :
    Bool × List FlushEffect :=
  if ob.mode &&& OB_MODE_SCULPT ≠ 0 then
    -- Don't allow flushing while in the middle of a stroke.
    if sculptCacheActive ob then
      (false, [])
    else
      (true,
        FlushEffect.multires_force_update i ::
          (if for_render then [FlushEffect.bm_to_me_for_render i]
           else [FlushEffect.bm_to_me i]))
  else if ob.mode &&& OB_MODE_EDIT ≠ 0 then
    (true, [FlushEffect.editmode_load i])
  else
    (false, [])

/-- The `ED_editors_flush_edits` loop over the objects from position `i`
on: accumulated `has_edited` and flush actions in program order. -/
def flushLoop (for_render : Bool) : Nat → List Object → Bool × List FlushEffect
  | _, [] => (false, [])
  | i, ob :: rest =>
    let r := flushObject for_render i ob
    let r' := flushLoop for_render (i + 1) rest
    (r.1 || r'.1, r.2 ++ r'.2)

/-- The `ED_editors_flush_edits(C, for_render)` over a main database holding
the object list `objs`: the returned `has_edited` and the flush actions
performed. -/
def ED_editors_flush_edits (for_render : Bool) (objs : List Object) :
    Bool × List FlushEffect :=
  flushLoop for_render 0 objs

/-- The condition under which the flush loop body flushes an object and
sets `has_edited`: in sculpt mode with no active stroke cache, or (not in
sculpt mode and) in edit mode. -/
def flushesObject (ob : Object) : Bool :=
  if ob.mode &&& OB_MODE_SCULPT ≠ 0 then !sculptCacheActive ob
  else ob.mode &&& OB_MODE_EDIT ≠ 0

/-! ### `ED_editors_init` -/

/-- The `data && ID_IS_LINKED(data)`: the object's data exists and is
library-linked. -/
def dataLinked (ob : Object) : Bool :=
  match ob.data with
  | some d => d.linked
  | none => false

/-- One iteration of the `ED_editors_init` object loop on the object at
position `i`, with `obact_idx` the position of the active object: the
updated object, and the `ED_object_mode_toggle(C, mode)` calls made,
recorded as (object position, mode argument) pairs. -/
def initObject (obact_idx : Nat) (i : Nat) (ob : Object) :
    Object × List (Nat × Nat) :=
  let mode := ob.mode
  if mode = OB_MODE_OBJECT then
    (ob, [])
  else if ob.has_mode_data = false then
    if ob.type ≠ OB_GPENCIL then
      let ob' := { ob with mode := OB_MODE_OBJECT }
      if i = obact_idx ∧ ob.linked = false ∧ dataLinked ob = false then
        (ob', [(i, mode)])
      else
        (ob', [])
    else
      (ob, [])
  else
    (ob, [])

/-- The `ED_editors_init` object loop from position `i` on. -/
def initLoop (obact_idx : Nat) : Nat → List Object →
    List Object × List (Nat × Nat)
  | _, [] => ([], [])
  | i, ob :: rest =>
    let r := initObject obact_idx i ob
    let r' := initLoop obact_idx (i + 1) rest
    (r.1 :: r'.1, r.2 ++ r'.2)

/-- Result of `ED_editors_init`: the updated object list, the mode
toggles invoked, and the report-list flag while the body ran and after
the function returned. -/
structure InitResult where
  objects : List Object
  toggles : List (Nat × Nat)
  reports_flag_during : Nat
  reports_flag_after : Nat
  deriving DecidableEq

/-- The `ED_editors_init(C)`: `obact_idx` is the position of the active
object in `objs` (`none` when `CTX_data_active_object` is NULL) and
`reports_flag` the incoming `reports->flag`.  The two `SWAP`s of
`reports->flag` with `reports_flag_prev = flag & ~RPT_STORE` are modelled
explicitly; the undo-stack creation and the image-paint update touch no
state modelled here. -/
def ED_editors_init (obact_idx : Option Nat) (objs : List Object)
    (reports_flag : Nat) : InitResult :=
  -- int reports_flag_prev = reports->flag & ~RPT_STORE;
  let reports_flag_prev := Nat.ldiff reports_flag RPT_STORE
  -- SWAP(int, reports->flag, reports_flag_prev);
  let flag_during := reports_flag_prev
  let prev_after_swap := reports_flag
  let r :=
    match obact_idx with
    | none => (objs, [])
    | some a => initLoop a 0 objs
  -- SWAP(int, reports->flag, reports_flag_prev);  (restores the flag)
  { objects := r.1
    toggles := r.2
    reports_flag_during := flag_during
    reports_flag_after := prev_after_swap }

/-! ### `ED_editors_exit` -/

/-- A window manager, restricted to the only field `ED_editors_exit`
uses: whether `wm->undo_stack` is non-NULL. -/
structure WindowManager where
  undo_stack : Bool
  deriving DecidableEq

/-- A free/destroy action performed by `ED_editors_exit`, tagged with
the position of the object it was performed for where relevant. -/
inductive ExitEffect
  /-- The call `BKE_undosys_stack_destroy(wm->undo_stack)` -/
  | undosys_stack_destroy
  /-- The call `EDBM_mesh_free(me->edit_btmesh)` followed by `MEM_freeN` -/
  | edbm_mesh_free (i : Nat)
  /-- The call `ED_armature_edit_free(ob->data)` -/
  | armature_edit_free (i : Nat)
  deriving DecidableEq

/-- One iteration of the `ED_editors_exit` object loop on the object at
position `i`.  For a mesh the loop itself clears `me->edit_btmesh`; for
an armature it calls `ED_armature_edit_free`, recorded as an effect (the
callee is outside these sources).  A NULL `ob->data` is treated as a
no-op. -/
def exitObject (i : Nat) (ob : Object) : Object × List ExitEffect :=
  if ob.type = OB_MESH then
    match ob.data with
    | some me =>
      if me.edit_btmesh then
        ({ ob with data := some { me with edit_btmesh := false } },
          [ExitEffect.edbm_mesh_free i])
      else (ob, [])
    | none => (ob, [])
  else if ob.type = OB_ARMATURE then
    match ob.data with
    | some arm =>
      if arm.edbo then (ob, [ExitEffect.armature_edit_free i])
      else (ob, [])
    | none => (ob, [])
  else
    (ob, [])

/-- The `ED_editors_exit` object loop from position `i` on. -/
def exitLoop : Nat → List Object → List Object × List ExitEffect
  | _, [] => ([], [])
  | i, ob :: rest =>
    let r := exitObject i ob
    let r' := exitLoop (i + 1) rest
    (r.1 :: r'.1, r.2 ++ r'.2)

/-- The undo-stack part of `ED_editors_exit`: for the first window
manager of the global main (`G_MAIN->wm.first`, `none` when the list is
empty), destroy its undo stack when one exists and set the pointer to
NULL. -/
def exitWM (gwm : Option WindowManager) :
    Option WindowManager × List ExitEffect :=
  match gwm with
  | some wm =>
    if wm.undo_stack then
      (some { wm with undo_stack := false },
        [ExitEffect.undosys_stack_destroy])
    else
      (some wm, [])
  | none => (none, [])

/-- The `ED_editors_exit(C)`: `bmain` is the context's main database (`none`
when NULL) and `gwm` the first window manager of the global main.
Returns the updated database, the updated window manager, and the
free/destroy actions performed in program order. -/
def ED_editors_exit (bmain : Option (List Object))
    (gwm : Option WindowManager) :
    Option (List Object) × Option WindowManager × List ExitEffect :=
  match bmain with
  | none => (none, gwm, [])
  | some objs =>
    -- frees all editmode undos
    let wmres := exitWM gwm
    let r := exitLoop 0 objs
    (some r.1, wmres.1, wmres.2 ++ r.2)

/-! ### `apply_keyb_grid` -/

/-- The `apply_keyb_grid(shift, ctrl, &val, fac1, fac2, fac3, invert)`: the
updated `*val`.  Floats are modelled as rationals and `floorf` as the
exact floor. -/
def apply_keyb_grid (shift ctrl : Bool) (val : ℚ) (fac1 fac2 fac3 : ℚ)
    (invert : Bool) : ℚ :=
  -- fac1 is for 'nothing', fac2 for CTRL, fac3 for SHIFT
  let ctrl := if invert then !ctrl else ctrl
  if ctrl && shift then
    if fac3 ≠ 0 then fac3 * (⌊val / fac3 + 1/2⌋ : ℚ) else val
  else if ctrl then
    if fac2 ≠ 0 then fac2 * (⌊val / fac2 + 1/2⌋ : ℚ) else val
  else
    if fac1 ≠ 0 then fac1 * (⌊val / fac1 + 1/2⌋ : ℚ) else val

/-! ### `unpack_menu` -/

/-- Result of `checkPackedFile` for a path. -/
inductive PF_FileCompare
  | PF_NOFILE
  | PF_EQUAL
  | PF_DIFFERS
  deriving DecidableEq

/-- The `method` value set on an unpack menu entry. -/
inductive PF_Method
  | PF_REMOVE
  | PF_USE_LOCAL
  | PF_WRITE_LOCAL
  | PF_USE_ORIGINAL
  | PF_WRITE_ORIGINAL
  deriving DecidableEq

/-- The label kind of an unpack menu entry ("Remove Pack", "Create %s",
"Use %s (identical)", "Use %s (differs)", "Overwrite %s"). -/
inductive MenuLabel
  | removePack
  | create
  | useIdentical
  | useDiffers
  | overwrite
  deriving DecidableEq

/-- One entry of the popup menu built by `unpack_menu`: its label kind,
the path its label names (`none` for "Remove Pack"), and its `method`
property. -/
structure MenuEntry where
  label : MenuLabel
  target : Option String
  method : PF_Method
  deriving DecidableEq

/-- The `BLI_split_file_part`: the file-name component of a path, i.e.
everything after the last path separator. -/
def BLI_split_file_part (s : String) : String :=
  ((s.toList.reverse.takeWhile (fun c => !(c == '/' || c == '\\'))).reverse).asString

/-- The local name `unpack_menu` builds: `//folder/file`. -/
def localNameOf (abs_name folder : String) : String :=
  "//" ++ folder ++ "/" ++ BLI_split_file_part abs_name

/-- The `unpack_menu(C, opname, id_name, abs_name, folder, pf)`: the menu
entries added, in order.  `check` stands for `checkPackedFile` (its
implementation reads the filesystem), `blendfile_path` for
`BKE_main_blendfile_path(bmain)` and `relbase_valid` for
`G.relbase_valid`. -/
def unpack_menu (check : String → String → PF_FileCompare)
    (blendfile_path : String) (relbase_valid : Bool)
    (id_name abs_name folder : String) : List MenuEntry :=
  let local_name := localNameOf abs_name folder
  let localEntries : List MenuEntry :=
    if relbase_valid && !(abs_name == local_name) then
      match check blendfile_path local_name with
      | .PF_NOFILE => [⟨.create, some local_name, .PF_WRITE_LOCAL⟩]
      | .PF_EQUAL => [⟨.useIdentical, some local_name, .PF_USE_LOCAL⟩]
      | .PF_DIFFERS =>
        [⟨.useDiffers, some local_name, .PF_USE_LOCAL⟩,
         ⟨.overwrite, some local_name, .PF_WRITE_LOCAL⟩]
    else []
  let absEntries : List MenuEntry :=
    match check blendfile_path abs_name with
    | .PF_NOFILE => [⟨.create, some abs_name, .PF_WRITE_ORIGINAL⟩]
    | .PF_EQUAL => [⟨.useIdentical, some abs_name, .PF_USE_ORIGINAL⟩]
    | .PF_DIFFERS =>
      [⟨.useDiffers, some abs_name, .PF_USE_ORIGINAL⟩,
       ⟨.overwrite, some abs_name, .PF_WRITE_ORIGINAL⟩]
  ⟨.removePack, none, .PF_REMOVE⟩ :: (localEntries ++ absEntries)

/-- Is this entry one of those added for the relative local path
(method `PF_USE_LOCAL` or `PF_WRITE_LOCAL`)? -/
def MenuEntry.isLocal (e : MenuEntry) : Bool :=
  match e.method with
  | .PF_USE_LOCAL => true
  | .PF_WRITE_LOCAL => true
  | _ => false

/-- Is this entry one of those added for the absolute path
(method `PF_USE_ORIGINAL` or `PF_WRITE_ORIGINAL`)? -/
def MenuEntry.isOriginal (e : MenuEntry) : Bool :=
  match e.method with
  | .PF_USE_ORIGINAL => true
  | .PF_WRITE_ORIGINAL => true
  | _ => false

/-! ### `ED_spacedata_id_remap` -/

/-- A registered space type: its space id and its `id_remap` callback
(`none` when the function pointer is NULL; callbacks are named by
numbers). -/
structure SpaceType where
  spaceid : Nat
  id_remap : Option Nat
  deriving DecidableEq

/-- The `BKE_spacetype_from_id`: the space type registered for a space id,
looked up in the global list of registered space types. -/
def BKE_spacetype_from_id (spacetypes : List SpaceType) (spaceid : Nat) :
    Option SpaceType :=
  spacetypes.find? (fun st => st.spaceid == spaceid)

/-- The `ED_spacedata_id_remap(sa, sl, old_id, new_id)`: the `id_remap`
callback invoked, `none` when the call performs no action. -/
def ED_spacedata_id_remap (spacetypes : List SpaceType)
    (sl_spacetype : Nat) : Option Nat :=
  match BKE_spacetype_from_id spacetypes sl_spacetype with
  | some st => st.id_remap
  | none => none

end BlenderXR

namespace BlenderXR

/-! Theorems for the widget claims. -/

/-- C1 counterexample: the RGBA color set by `render_icon` is *not* a
single constant independent of `active`: with `active = true` it is red
`(1,0,0,1)`, with `active = false` it is white `(1,1,1,1)`. -/
theorem C1_color_not_constant :
    colorSet (Widget_Shift.render_icon 1 1 0 true false) ≠
      colorSet (Widget_Shift.render_icon 1 1 0 false false) := by
  decide

/-- C1 (amended): the RGBA color set by `render_icon` before rendering the
rectangle is independent of `touched` (and of the transform and side), and
is red `(1,0,0,1)` when `active` and white `(1,1,1,1)` otherwise. -/
theorem C1_color_depends_only_on_active (M t : Mat44f) (side : VR_Side)
    (active touched : Bool) :
    colorSet (Widget_Shift.render_icon M t side active touched) =
      some (if active then (1, 0, 0, 1) else (1, 1, 1, 1)) := by
  cases active <;> cases touched <;> rfl

/-- C2 counterexample: the modelview matrix passed to the draw layer is
*not* always the argument `t`: with `m_widget_touched` the zero matrix,
`t` the identity and `touched = true`, the matrix passed is
`0 * 1 = 0 ≠ 1`. -/
theorem C2_modelview_not_always_t :
    modelviewSet (Widget_Shift.render_icon 0 1 0 false true) ≠
      some (1 : Mat44f) := by
  have h : modelviewSet (Widget_Shift.render_icon 0 1 0 false true) =
      some ((0 : Mat44f) * 1) := rfl
  rw [h, Matrix.zero_mul]
  intro hcontra
  exact zero_ne_one (Option.some.inj hcontra)

/-- C2 (amended): the modelview matrix passed to the draw layer is
`m_widget_touched * t` when `touched` and exactly `t` otherwise,
independent of `active`. -/
theorem C2_modelview_matrix (M t : Mat44f) (side : VR_Side)
    (active touched : Bool) :
    modelviewSet (Widget_Shift.render_icon M t side active touched) =
      some (if touched then M * t else t) := by
  cases active <;> cases touched <;> rfl

/-! Lemmas and theorems for `ED_editors_flush_edits` (C3, C4). -/

lemma flushObject_fst (fr : Bool) (i : Nat) (ob : Object) :
    (flushObject fr i ob).1 = flushesObject ob := by
  unfold flushObject flushesObject
  split
  · by_cases h : sculptCacheActive ob <;> simp [h]
  · split <;> simp_all

lemma flushObject_of_not_flushes (fr : Bool) (i : Nat) (ob : Object)
    (h : flushesObject ob = false) : flushObject fr i ob = (false, []) := by
  unfold flushesObject at h
  unfold flushObject
  split
  · simp_all
  · simp_all

lemma flushLoop_fst (fr : Bool) (i : Nat) (objs : List Object) :
    (flushLoop fr i objs).1 = objs.any flushesObject := by
  induction objs generalizing i with
  | nil => rfl
  | cons ob rest ih =>
    simp [flushLoop, flushObject_fst, ih, List.any_cons]

lemma flushLoop_of_none (fr : Bool) (i : Nat) (objs : List Object)
    (h : ∀ ob ∈ objs, flushesObject ob = false) :
    flushLoop fr i objs = (false, []) := by
  induction objs generalizing i with
  | nil => rfl
  | cons ob rest ih =>
    have h1 := h ob (List.mem_cons_self ob rest)
    have h2 : ∀ ob' ∈ rest, flushesObject ob' = false :=
      fun ob' hm => h ob' (List.mem_cons_of_mem ob hm)
    simp [flushLoop, flushObject_of_not_flushes fr i ob h1, ih (i + 1) h2]

lemma flushesObject_iff (ob : Object) :
    flushesObject ob = true ↔
      ((ob.mode &&& OB_MODE_SCULPT ≠ 0 ∧ sculptCacheActive ob = false) ∨
       (ob.mode &&& OB_MODE_SCULPT = 0 ∧ ob.mode &&& OB_MODE_EDIT ≠ 0)) := by
  unfold flushesObject
  split
  · next h => simp [h, Bool.not_eq_true']
  · next h =>
    simp only [ne_eq, not_not] at h
    simp [h]

/-- C3 counterexample: an object whose `mode` has both the sculpt and
the edit bits set and whose sculpt session has an active stroke cache is
"in edit mode" yet makes `ED_editors_flush_edits` return `false`, so the
claimed equivalence fails on that one-object database. -/
theorem C3_flush_edits_counterexample :
    ¬ ((ED_editors_flush_edits false
          [⟨OB_MODE_SCULPT ||| OB_MODE_EDIT, OB_MESH, false, none,
            some ⟨true⟩, false⟩]).1 = true ↔
        ∃ ob ∈ [(⟨OB_MODE_SCULPT ||| OB_MODE_EDIT, OB_MESH, false, none,
            some ⟨true⟩, false⟩ : Object)],
          (ob.mode &&& OB_MODE_EDIT ≠ 0 ∨
           (ob.mode &&& OB_MODE_SCULPT ≠ 0 ∧ sculptCacheActive ob = false))) := by
  decide

/-- C3 (amended): `ED_editors_flush_edits` returns `true` iff some object
in the database is in sculpt mode with no active stroke cache, or is in
edit mode and not in sculpt mode; when no such object exists it returns
`false` and performs no flush action. -/
theorem C3_flush_edits (fr : Bool) (objs : List Object) :
    ((ED_editors_flush_edits fr objs).1 = true ↔
      ∃ ob ∈ objs,
        ((ob.mode &&& OB_MODE_SCULPT ≠ 0 ∧ sculptCacheActive ob = false) ∨
         (ob.mode &&& OB_MODE_SCULPT = 0 ∧ ob.mode &&& OB_MODE_EDIT ≠ 0))) ∧
    ((¬ ∃ ob ∈ objs,
        ((ob.mode &&& OB_MODE_SCULPT ≠ 0 ∧ sculptCacheActive ob = false) ∨
         (ob.mode &&& OB_MODE_SCULPT = 0 ∧ ob.mode &&& OB_MODE_EDIT ≠ 0))) →
      ED_editors_flush_edits fr objs = (false, [])) := by
  constructor
  · rw [ED_editors_flush_edits, flushLoop_fst, List.any_eq_true]
    constructor
    · rintro ⟨ob, hm, hp⟩
      exact ⟨ob, hm, (flushesObject_iff ob).mp hp⟩
    · rintro ⟨ob, hm, hp⟩
      exact ⟨ob, hm, (flushesObject_iff ob).mpr hp⟩
  · intro hnone
    apply flushLoop_of_none
    intro ob hm
    by_contra hb
    rw [Bool.not_eq_false] at hb
    exact hnone ⟨ob, hm, (flushesObject_iff ob).mp hb⟩

/-- Witness for C3 at a concrete input: an empty database flushes
nothing and returns `false`. -/
theorem C3_flush_edits_witness :
    ED_editors_flush_edits false [] = (false, []) :=
  (C3_flush_edits false []).2 (by decide)

lemma flushObject_effect_index (fr : Bool) (i : Nat) (ob : Object)
    (e : FlushEffect) (he : e ∈ (flushObject fr i ob).2) :
    e.index = i := by
  unfold flushObject at he
  split at he
  · split at he
    · simp at he
    · simp only at he
      rcases List.mem_cons.mp he with h | h
      · subst h; rfl
      · split at h <;> simp_all <;> subst h <;> rfl
  · split at he <;> simp_all
    subst he; rfl

lemma flushLoop_effect_mem (fr : Bool) (k : Nat) (objs : List Object)
    (e : FlushEffect) (he : e ∈ (flushLoop fr k objs).2) :
    ∃ j ob, objs.get? j = some ob ∧ e ∈ (flushObject fr (k + j) ob).2 := by
  induction objs generalizing k with
  | nil => simp [flushLoop] at he
  | cons ob rest ih =>
    simp only [flushLoop, List.mem_append] at he
    rcases he with h | h
    · exact ⟨0, ob, rfl, by simpa using h⟩
    · obtain ⟨j, ob', hg, hm⟩ := ih (k + 1) h
      exact ⟨j + 1, ob', hg, by rwa [Nat.add_comm j 1, ← Nat.add_assoc]⟩

lemma any_eraseIdx_of_get (p : Object → Bool) (objs : List Object)
    (i : Nat) (ob : Object) (hg : objs.get? i = some ob)
    (hp : p ob = false) :
    (objs.eraseIdx i).any p = objs.any p := by
  induction objs generalizing i with
  | nil => simp at hg
  | cons hd tl ih =>
    cases i with
    | zero =>
      simp only [List.get?] at hg
      injection hg with hg
      subst hg
      simp [List.eraseIdx, hp]
    | succ n =>
      simp only [List.get?] at hg
      simp [List.eraseIdx, ih n hg]

/-- C4: an object in sculpt mode with an active stroke cache contributes
nothing to `ED_editors_flush_edits`: no flush action is recorded for its
position, and the returned `has_edited` equals the result on the database
without that object. -/
theorem C4_sculpt_cache_untouched (fr : Bool) (objs : List Object)
    (i : Nat) (ob : Object) (hg : objs.get? i = some ob)
    (hsculpt : ob.mode &&& OB_MODE_SCULPT ≠ 0)
    (hcache : sculptCacheActive ob = true) :
    (∀ e ∈ (ED_editors_flush_edits fr objs).2, e.index ≠ i) ∧
    (ED_editors_flush_edits fr objs).1 =
      (ED_editors_flush_edits fr (objs.eraseIdx i)).1 := by
  have hflush : flushesObject ob = false := by
    unfold flushesObject
    simp [hsculpt, hcache]
  constructor
  · intro e he hidx
    obtain ⟨j, ob', hg', hm⟩ := flushLoop_effect_mem fr 0 objs e he
    have hj : e.index = 0 + j := flushObject_effect_index fr (0 + j) ob' e hm
    have hji : j = i := by omega
    subst hji
    rw [hg] at hg'
    injection hg' with hg'
    subst hg'
    rw [flushObject_of_not_flushes fr (0 + j) ob hflush] at hm
    simp at hm
  · rw [ED_editors_flush_edits, ED_editors_flush_edits, flushLoop_fst,
      flushLoop_fst, any_eraseIdx_of_get flushesObject objs i ob hg hflush]

/-! Lemmas and theorems for `ED_editors_init` (C5, C9). -/

lemma initLoop_get (a k : Nat) (objs : List Object) (i : Nat) :
    (initLoop a k objs).1.get? i =
      (objs.get? i).map (fun ob => (initObject a (k + i) ob).1) := by
  induction objs generalizing k i with
  | nil => simp [initLoop]
  | cons ob rest ih =>
    cases i with
    | zero => simp [initLoop]
    | succ n =>
      simp only [initLoop, List.get?]
      rw [ih (k + 1) n, Nat.add_comm n 1, ← Nat.add_assoc]

lemma initObject_fst_reset (a i : Nat) (ob : Object)
    (h1 : ob.mode ≠ OB_MODE_OBJECT) (h2 : ob.has_mode_data = false)
    (h3 : ob.type ≠ OB_GPENCIL) :
    (initObject a i ob).1 = { ob with mode := OB_MODE_OBJECT } := by
  unfold initObject
  repeat' split
  all_goals first | rfl | simp_all

lemma initObject_toggle (a i : Nat) (ob : Object) (p : Nat × Nat)
    (hp : p ∈ (initObject a i ob).2) :
    p = (i, ob.mode) ∧ i = a ∧ ob.linked = false ∧ dataLinked ob = false := by
  unfold initObject at hp
  repeat' (first | split at hp | simp_all)

lemma initLoop_toggle_mem (a k : Nat) (objs : List Object) (p : Nat × Nat)
    (hp : p ∈ (initLoop a k objs).2) :
    ∃ j ob, objs.get? j = some ob ∧ p ∈ (initObject a (k + j) ob).2 := by
  induction objs generalizing k with
  | nil => simp [initLoop] at hp
  | cons ob rest ih =>
    simp only [initLoop, List.mem_append] at hp
    rcases hp with h | h
    · exact ⟨0, ob, rfl, by simpa using h⟩
    · obtain ⟨j, ob', hg, hm⟩ := ih (k + 1) h
      exact ⟨j + 1, ob', hg, by rwa [Nat.add_comm j 1, ← Nat.add_assoc]⟩

/-- C5: when an active object exists, `ED_editors_init` resets the mode
of every non-grease-pencil object whose saved mode is not
`OB_MODE_OBJECT` and that has no mode data; and every mode toggle it
invokes is for the active object, which is then unlinked with unlinked
(or absent) data. -/
theorem C5_editors_init (a : Nat) (objs : List Object) (f : Nat) :
    (∀ i ob, objs.get? i = some ob → ob.mode ≠ OB_MODE_OBJECT →
      ob.has_mode_data = false → ob.type ≠ OB_GPENCIL →
      (ED_editors_init (some a) objs f).objects.get? i =
        some { ob with mode := OB_MODE_OBJECT }) ∧
    (∀ p ∈ (ED_editors_init (some a) objs f).toggles,
      p.1 = a ∧ ∃ ob, objs.get? a = some ob ∧ ob.linked = false ∧
        dataLinked ob = false) := by
  constructor
  · intro i ob hg h1 h2 h3
    have hobj : (ED_editors_init (some a) objs f).objects =
        (initLoop a 0 objs).1 := rfl
    rw [hobj, initLoop_get a 0 objs i, hg]
    show some ((initObject a (0 + i) ob).1) =
      some { ob with mode := OB_MODE_OBJECT }
    rw [Nat.zero_add, initObject_fst_reset a i ob h1 h2 h3]
  · intro p hp
    have hploop : p ∈ (initLoop a 0 objs).2 := hp
    obtain ⟨j, ob, hg, hm⟩ := initLoop_toggle_mem a 0 objs p hploop
    obtain ⟨hpeq, hja, hlink, hdata⟩ := initObject_toggle a (0 + j) ob p hm
    have hj : j = a := by omega
    subst hj
    constructor
    · rw [hpeq]; omega
    · exact ⟨ob, hg, hlink, hdata⟩

/-- Witness for C5 at a concrete input: a one-object database whose
object is in edit mode with no mode data; its mode is reset. -/
theorem C5_editors_init_witness :
    (ED_editors_init (some 0)
        [⟨OB_MODE_EDIT, OB_MESH, false, none, none, false⟩] 5).objects.get? 0 =
      some { (⟨OB_MODE_EDIT, OB_MESH, false, none, none, false⟩ : Object) with
        mode := OB_MODE_OBJECT } :=
  (C5_editors_init 0 [⟨OB_MODE_EDIT, OB_MESH, false, none, none, false⟩] 5).1
    0 ⟨OB_MODE_EDIT, OB_MESH, false, none, none, false⟩
    (by decide) (by decide) (by decide) (by decide)

lemma ldiff_land_self (f m : Nat) : Nat.ldiff f m &&& m = 0 := by
  apply Nat.eq_of_testBit_eq
  intro k
  cases h : Nat.testBit m k <;>
    simp [Nat.testBit_land, Nat.testBit_ldiff, h]

lemma ldiff_lor_land (f m : Nat) : Nat.ldiff f m ||| (f &&& m) = f := by
  apply Nat.eq_of_testBit_eq
  intro k
  cases h : Nat.testBit m k <;> cases h2 : Nat.testBit f k <;>
    simp [Nat.testBit_lor, Nat.testBit_land, Nat.testBit_ldiff, h, h2]

/-- C9: `ED_editors_init` restores the report-list flag: after the
function returns the flag has its original value, and while the body ran
the flag had the `RPT_STORE` bit cleared and every other bit intact. -/
theorem C9_reports_flag_restored (obact_idx : Option Nat)
    (objs : List Object) (f : Nat) :
    (ED_editors_init obact_idx objs f).reports_flag_after = f ∧
    (ED_editors_init obact_idx objs f).reports_flag_during &&& RPT_STORE = 0 ∧
    (ED_editors_init obact_idx objs f).reports_flag_during |||
      (f &&& RPT_STORE) = f := by
  refine ⟨rfl, ?_, ?_⟩
  · exact ldiff_land_self f RPT_STORE
  · exact ldiff_lor_land f RPT_STORE

/-- Witness for C4 at a concrete input: a one-object database whose only
object is in sculpt mode with an active stroke cache. -/
theorem C4_sculpt_cache_untouched_witness :
    (∀ e ∈ (ED_editors_flush_edits false
        [⟨OB_MODE_SCULPT, OB_MESH, false, none, some ⟨true⟩, false⟩]).2,
      e.index ≠ 0) ∧
    (ED_editors_flush_edits false
        [⟨OB_MODE_SCULPT, OB_MESH, false, none, some ⟨true⟩, false⟩]).1 =
      (ED_editors_flush_edits false
        ([(⟨OB_MODE_SCULPT, OB_MESH, false, none, some ⟨true⟩,
            false⟩ : Object)].eraseIdx 0)).1 :=
  C4_sculpt_cache_untouched false
    [⟨OB_MODE_SCULPT, OB_MESH, false, none, some ⟨true⟩, false⟩] 0
    ⟨OB_MODE_SCULPT, OB_MESH, false, none, some ⟨true⟩, false⟩
    (by decide) (by decide) (by decide)

/-! Lemmas and theorems for `ED_editors_exit` (C10). -/

lemma exitLoop_get (k : Nat) (objs : List Object) (i : Nat) :
    (exitLoop k objs).1.get? i =
      (objs.get? i).map (fun ob => (exitObject (k + i) ob).1) := by
  induction objs generalizing k i with
  | nil => simp [exitLoop]
  | cons ob rest ih =>
    cases i with
    | zero => simp [exitLoop]
    | succ n =>
      simp only [exitLoop, List.get?]
      rw [ih (k + 1) n, Nat.add_comm n 1, ← Nat.add_assoc]

lemma exitLoop_effect_of (k j : Nat) (objs : List Object) (ob : Object)
    (e : ExitEffect) (hg : objs.get? j = some ob)
    (he : e ∈ (exitObject (k + j) ob).2) :
    e ∈ (exitLoop k objs).2 := by
  induction objs generalizing k j with
  | nil => simp at hg
  | cons hd tl ih =>
    cases j with
    | zero =>
      simp only [List.get?] at hg
      injection hg with hg
      subst hg
      exact List.mem_append_left _ (by simpa using he)
    | succ n =>
      simp only [List.get?] at hg
      apply List.mem_append_right
      apply ih (k + 1) n hg
      have heq : k + 1 + n = k + n + 1 := by omega
      rw [heq]
      exact he

lemma exitObject_mesh (i : Nat) (ob : Object) (me : ObjData)
    (ht : ob.type = OB_MESH) (hd : ob.data = some me) :
    (exitObject i ob).1 =
      { ob with data := some { me with edit_btmesh := false } } := by
  unfold exitObject
  rw [if_pos ht, hd]
  cases hbt : me.edit_btmesh <;> (cases ob; cases me; simp_all)

lemma exitObject_armature (i : Nat) (ob : Object) (arm : ObjData)
    (ht : ob.type = OB_ARMATURE) (hd : ob.data = some arm)
    (he : arm.edbo = true) :
    ExitEffect.armature_edit_free i ∈ (exitObject i ob).2 := by
  have htm : ob.type ≠ OB_MESH := by rw [ht]; decide
  unfold exitObject
  rw [if_neg htm, if_pos ht, hd]
  simp [he]

/-- C10: `ED_editors_exit` on a NULL main database returns immediately
with all state unchanged; on a non-NULL database, afterwards every mesh
object's `edit_btmesh` pointer is cleared, `ED_armature_edit_free` was
called for every armature object with edit-bone data, and the first
window manager's undo stack is destroyed (when one existed) and set to
NULL. -/
theorem C10_editors_exit (gwm : Option WindowManager) (objs : List Object) :
    ED_editors_exit none gwm = (none, gwm, []) ∧
    (∀ i ob me, objs.get? i = some ob → ob.type = OB_MESH →
      ob.data = some me →
      ∃ l, (ED_editors_exit (some objs) gwm).1 = some l ∧
        l.get? i =
          some { ob with data := some { me with edit_btmesh := false } }) ∧
    (∀ i ob arm, objs.get? i = some ob → ob.type = OB_ARMATURE →
      ob.data = some arm → arm.edbo = true →
      ExitEffect.armature_edit_free i ∈
        (ED_editors_exit (some objs) gwm).2.2) ∧
    (∀ wm, gwm = some wm →
      (ED_editors_exit (some objs) gwm).2.1 =
        some { wm with undo_stack := false } ∧
      (wm.undo_stack = true →
        ExitEffect.undosys_stack_destroy ∈
          (ED_editors_exit (some objs) gwm).2.2)) := by
  refine ⟨rfl, ?_, ?_, ?_⟩
  · intro i ob me hg ht hd
    refine ⟨(exitLoop 0 objs).1, rfl, ?_⟩
    rw [exitLoop_get 0 objs i, hg]
    show some ((exitObject (0 + i) ob).1) =
      some { ob with data := some { me with edit_btmesh := false } }
    rw [Nat.zero_add, exitObject_mesh i ob me ht hd]
  · intro i ob arm hg ht hd he
    show ExitEffect.armature_edit_free i ∈
      (exitWM gwm).2 ++ (exitLoop 0 objs).2
    apply List.mem_append_right
    apply exitLoop_effect_of 0 i objs ob _ hg
    rw [Nat.zero_add]
    exact exitObject_armature i ob arm ht hd he
  · intro wm hwm
    subst hwm
    cases hus : wm.undo_stack
    · constructor
      · show (exitWM (some wm)).1 = some { wm with undo_stack := false }
        unfold exitWM
        simp only [hus, Bool.false_eq_true, if_false]
        cases wm
        simp_all
      · intro h
        exact absurd h (by decide)
    · constructor
      · show (exitWM (some wm)).1 = some { wm with undo_stack := false }
        unfold exitWM
        simp [hus]
      · intro _
        show ExitEffect.undosys_stack_destroy ∈
          (exitWM (some wm)).2 ++ (exitLoop 0 objs).2
        apply List.mem_append_left
        unfold exitWM
        simp [hus]

/-! Theorems for `apply_keyb_grid` (C8) and `ED_spacedata_id_remap`
(C7). -/

/-- C8: `apply_keyb_grid` selects exactly one factor — `fac3` when the
(possibly inverted) ctrl and shift are both set, else `fac2` when ctrl
is set, else `fac1` — and replaces the value with
`fac * floor(val / fac + 0.5)`; a zero selected factor leaves the value
unchanged. -/
theorem C8_apply_keyb_grid (shift ctrl : Bool) (val fac1 fac2 fac3 : ℚ)
    (invert : Bool) :
    apply_keyb_grid shift ctrl val fac1 fac2 fac3 invert =
      (let c := if invert then !ctrl else ctrl
       let fac := if c && shift then fac3 else if c then fac2 else fac1
       if fac = 0 then val else fac * (⌊val / fac + 1/2⌋ : ℚ)) := by
  cases invert <;> cases ctrl <;> cases shift <;>
    simp [apply_keyb_grid, ite_not]

/-- C7: `ED_spacedata_id_remap` invokes a callback exactly when a space
type is found for the space link's `spacetype` and that type's
`id_remap` pointer is non-null, and the callback invoked is that
type's. -/
theorem C7_spacedata_id_remap (sts : List SpaceType) (sid : Nat) :
    ((ED_spacedata_id_remap sts sid).isSome = true ↔
      ∃ st, BKE_spacetype_from_id sts sid = some st ∧
        st.id_remap.isSome = true) ∧
    (∀ st, BKE_spacetype_from_id sts sid = some st →
      ED_spacedata_id_remap sts sid = st.id_remap) := by
  cases h : BKE_spacetype_from_id sts sid with
  | none =>
    constructor
    · simp only [ED_spacedata_id_remap, h]
      simp
    · intro st hst
      simp at hst
  | some st =>
    constructor
    · simp only [ED_spacedata_id_remap, h]
      constructor
      · intro hs
        exact ⟨st, rfl, hs⟩
      · rintro ⟨st', hst', hs⟩
        injection hst' with he
        rw [he]
        exact hs
    · intro st' hst'
      injection hst' with he
      simp only [ED_spacedata_id_remap, h]
      rw [he]

/-- Witness for C7 at a concrete input: one registered space type with a
non-null `id_remap`; the callback invoked is that type's. -/
theorem C7_spacedata_id_remap_witness :
    ED_spacedata_id_remap [⟨3, some 7⟩] 3 =
      (⟨3, some 7⟩ : SpaceType).id_remap :=
  (C7_spacedata_id_remap [⟨3, some 7⟩] 3).2 ⟨3, some 7⟩ (by decide)

/-! Lemmas and theorems for `unpack_menu` (C6). -/

lemma filter_isLocal_unpack (check : String → String → PF_FileCompare)
    (bf : String) (rbv : Bool) (idn abs_name folder : String) :
    (unpack_menu check bf rbv idn abs_name folder).filter MenuEntry.isLocal =
      (if rbv && !(abs_name == localNameOf abs_name folder) then
        match check bf (localNameOf abs_name folder) with
        | .PF_NOFILE =>
          [⟨.create, some (localNameOf abs_name folder), .PF_WRITE_LOCAL⟩]
        | .PF_EQUAL =>
          [⟨.useIdentical, some (localNameOf abs_name folder), .PF_USE_LOCAL⟩]
        | .PF_DIFFERS =>
          [⟨.useDiffers, some (localNameOf abs_name folder), .PF_USE_LOCAL⟩,
           ⟨.overwrite, some (localNameOf abs_name folder), .PF_WRITE_LOCAL⟩]
       else []) := by
  simp only [unpack_menu]
  cases hguard : rbv && !(abs_name == localNameOf abs_name folder) <;>
    cases hc1 : check bf (localNameOf abs_name folder) <;>
    cases hc2 : check bf abs_name <;>
      simp [MenuEntry.isLocal, List.filter]

lemma filter_isOriginal_unpack (check : String → String → PF_FileCompare)
    (bf : String) (rbv : Bool) (idn abs_name folder : String) :
    (unpack_menu check bf rbv idn abs_name folder).filter
        MenuEntry.isOriginal =
      (match check bf abs_name with
      | .PF_NOFILE => [⟨.create, some abs_name, .PF_WRITE_ORIGINAL⟩]
      | .PF_EQUAL => [⟨.useIdentical, some abs_name, .PF_USE_ORIGINAL⟩]
      | .PF_DIFFERS =>
        [⟨.useDiffers, some abs_name, .PF_USE_ORIGINAL⟩,
         ⟨.overwrite, some abs_name, .PF_WRITE_ORIGINAL⟩]) := by
  simp only [unpack_menu]
  cases hguard : rbv && !(abs_name == localNameOf abs_name folder) <;>
    cases hc1 : check bf (localNameOf abs_name folder) <;>
    cases hc2 : check bf abs_name <;>
      simp [MenuEntry.isOriginal, List.filter]

/-- C6: the unpack menu always contains the "Remove Pack" entry; entries
for the relative local path appear only when the base path is valid and
the local name differs from the absolute name, and they target the local
name; for each consulted path, `PF_DIFFERS` yields exactly a "Use" and an
"Overwrite" entry, `PF_NOFILE` a single "Create" entry and `PF_EQUAL` a
single "Use" entry. -/
theorem C6_unpack_menu (check : String → String → PF_FileCompare)
    (bf : String) (rbv : Bool) (idn abs_name folder : String) :
    (⟨.removePack, none, .PF_REMOVE⟩ : MenuEntry) ∈
      unpack_menu check bf rbv idn abs_name folder ∧
    (∀ e ∈ unpack_menu check bf rbv idn abs_name folder,
      e.isLocal = true →
      rbv = true ∧ abs_name ≠ localNameOf abs_name folder ∧
        e.target = some (localNameOf abs_name folder)) ∧
    (rbv = true → abs_name ≠ localNameOf abs_name folder →
      ((check bf (localNameOf abs_name folder) = .PF_DIFFERS →
        (unpack_menu check bf rbv idn abs_name folder).filter
            MenuEntry.isLocal =
          [⟨.useDiffers, some (localNameOf abs_name folder), .PF_USE_LOCAL⟩,
           ⟨.overwrite, some (localNameOf abs_name folder),
             .PF_WRITE_LOCAL⟩]) ∧
       (check bf (localNameOf abs_name folder) = .PF_NOFILE →
        (unpack_menu check bf rbv idn abs_name folder).filter
            MenuEntry.isLocal =
          [⟨.create, some (localNameOf abs_name folder), .PF_WRITE_LOCAL⟩]) ∧
       (check bf (localNameOf abs_name folder) = .PF_EQUAL →
        (unpack_menu check bf rbv idn abs_name folder).filter
            MenuEntry.isLocal =
          [⟨.useIdentical, some (localNameOf abs_name folder),
            .PF_USE_LOCAL⟩]))) ∧
    ((check bf abs_name = .PF_DIFFERS →
      (unpack_menu check bf rbv idn abs_name folder).filter
          MenuEntry.isOriginal =
        [⟨.useDiffers, some abs_name, .PF_USE_ORIGINAL⟩,
         ⟨.overwrite, some abs_name, .PF_WRITE_ORIGINAL⟩]) ∧
     (check bf abs_name = .PF_NOFILE →
      (unpack_menu check bf rbv idn abs_name folder).filter
          MenuEntry.isOriginal =
        [⟨.create, some abs_name, .PF_WRITE_ORIGINAL⟩]) ∧
     (check bf abs_name = .PF_EQUAL →
      (unpack_menu check bf rbv idn abs_name folder).filter
          MenuEntry.isOriginal =
        [⟨.useIdentical, some abs_name, .PF_USE_ORIGINAL⟩])) := by
  refine ⟨?_, ?_, ?_, ?_⟩
  · exact List.mem_cons_self _ _
  · intro e he hl
    have hmem : e ∈ (unpack_menu check bf rbv idn abs_name folder).filter
        MenuEntry.isLocal := List.mem_filter.mpr ⟨he, hl⟩
    rw [filter_isLocal_unpack] at hmem
    by_cases hg : (rbv && !(abs_name == localNameOf abs_name folder)) = true
    · rw [if_pos hg] at hmem
      rw [Bool.and_eq_true] at hg
      obtain ⟨h1, h2⟩ := hg
      have hne : abs_name ≠ localNameOf abs_name folder := by
        intro hcontra
        rw [← hcontra] at h2
        simp at h2
      refine ⟨h1, hne, ?_⟩
      rcases hck : check bf (localNameOf abs_name folder) with _ | _ | _ <;>
        rw [hck] at hmem <;> simp at hmem <;>
          first
            | (rw [hmem])
            | (rcases hmem with hmem | hmem <;> rw [hmem])
    · rw [if_neg hg] at hmem
      exact absurd hmem (List.not_mem_nil e)
  · intro hrbv hneq
    have hb : (abs_name == localNameOf abs_name folder) = false := by
      cases hbeq : abs_name == localNameOf abs_name folder
      · rfl
      · exact absurd (eq_of_beq hbeq) hneq
    have hg : (rbv && !(abs_name == localNameOf abs_name folder)) = true := by
      rw [hrbv, hb]
      rfl
    refine ⟨?_, ?_, ?_⟩ <;> intro hc <;>
      rw [filter_isLocal_unpack, if_pos hg, hc]
  · refine ⟨?_, ?_, ?_⟩ <;> intro hc <;>
      rw [filter_isOriginal_unpack, hc]

/-- Witness for C6 at a concrete input: a valid base path, a local name
that differs from the absolute name, and `checkPackedFile` reporting
`PF_DIFFERS` everywhere: the local entries are "Use" then "Overwrite". -/
theorem C6_unpack_menu_witness :
    (unpack_menu (fun _ _ => PF_FileCompare.PF_DIFFERS) "" true "id"
        "C:/a/b.png" "tex").filter MenuEntry.isLocal =
      [⟨.useDiffers, some (localNameOf "C:/a/b.png" "tex"), .PF_USE_LOCAL⟩,
       ⟨.overwrite, some (localNameOf "C:/a/b.png" "tex"),
         .PF_WRITE_LOCAL⟩] :=
  ((C6_unpack_menu (fun _ _ => PF_FileCompare.PF_DIFFERS) "" true "id"
      "C:/a/b.png" "tex").2.2.1 rfl (by decide)).1 rfl

/-- Witness for C10 at a concrete input: a database with one mesh object
in edit mode and a window manager with a live undo stack. -/
theorem C10_editors_exit_witness :
    (∃ l, (ED_editors_exit
        (some [⟨OB_MODE_EDIT, OB_MESH, false, some ⟨false, true, false⟩,
          none, false⟩]) (some ⟨true⟩)).1 = some l ∧
      l.get? 0 =
        some { (⟨OB_MODE_EDIT, OB_MESH, false, some ⟨false, true, false⟩,
            none, false⟩ : Object) with
          data := some { (⟨false, true, false⟩ : ObjData) with
            edit_btmesh := false } }) ∧
    (ED_editors_exit
        (some [⟨OB_MODE_EDIT, OB_MESH, false, some ⟨false, true, false⟩,
          none, false⟩]) (some ⟨true⟩)).2.1 =
      some { (⟨true⟩ : WindowManager) with undo_stack := false } :=
  ⟨(C10_editors_exit (some ⟨true⟩)
      [⟨OB_MODE_EDIT, OB_MESH, false, some ⟨false, true, false⟩,
        none, false⟩]).2.1
    0 ⟨OB_MODE_EDIT, OB_MESH, false, some ⟨false, true, false⟩, none, false⟩
    ⟨false, true, false⟩ (by decide) (by decide) (by decide),
   ((C10_editors_exit (some ⟨true⟩)
      [⟨OB_MODE_EDIT, OB_MESH, false, some ⟨false, true, false⟩,
        none, false⟩]).2.2.2 ⟨true⟩ rfl).1⟩

end BlenderXR
